import Mathlib

/-!
Verification of the Combat & Balance Resolution Core of a turn-based RPG bot.

The Python source is shallowly embedded: Python floats are modelled as exact
rationals (`ℚ`), Python `int(x)` truncation as `pyInt`, Python `//` floor
division as `Int.fdiv`, and every random draw (`random.uniform`,
`random.randint`, `random.random`, `random.choice`) as an explicit parameter
threaded through the functions.  Mutation of the Python objects becomes
explicit state passing on immutable structures.
-/

namespace RPG

/-- Python `int(x)` truncates toward zero: floor for nonnegative values,
ceiling for negative ones. -/
def pyInt (q : ℚ) : ℤ := if 0 ≤ q then ⌊q⌋ else ⌈q⌉

theorem pyInt_of_nonneg {q : ℚ} (h : 0 ≤ q) : pyInt q = ⌊q⌋ := by
  simp [pyInt, h]

theorem pyInt_nonneg {q : ℚ} (h : 0 ≤ q) : 0 ≤ pyInt q := by
  rw [pyInt_of_nonneg h]
  exact Int.floor_nonneg.mpr h

/-!
## `BalancedCombatSystem.calculate_balanced_damage` (combat.py)

The `damage_config` constants are inlined as the exact rationals the source
assigns: `base_multiplier = 0.85`, `defense_efficiency = 0.6`,
`minimum_damage_ratio = 0.2`, `maximum_damage_reduction = 0.8`,
`variance = 0.15`, `critical_multiplier = 1.75`,
`magic_defense_penetration = 0.5`.  The uniform variance draw
`random.uniform(1 - 0.15, 1 + 0.15)` is the explicit parameter `variance`.
-/

def calculate_balanced_damage (attacker_power defender_defense : ℤ)
    (is_critical is_magic : Bool) (variance : ℚ) : ℤ :=
  let effective_defense : ℚ :=
    if is_magic then (defender_defense : ℚ) * (1 / 2) else (defender_defense : ℚ)
  let base_damage : ℚ :=
    (attacker_power : ℚ) * (85 / 100) - effective_defense * (6 / 10)
  let minimum_damage : ℚ := (attacker_power : ℚ) * (2 / 10)
  let damage₁ : ℚ := max base_damage minimum_damage
  let max_reduced_damage : ℚ := (attacker_power : ℚ) * (1 - 8 / 10)
  let damage₂ : ℚ := max damage₁ max_reduced_damage
  let damage₃ : ℚ := damage₂ * variance
  let damage₄ : ℚ := if is_critical then damage₃ * (175 / 100) else damage₃
  max 1 (pyInt damage₄)

/-- The damage value the spec's formula denotes (floor of the clamped base
times variance times critical factor), **without** the final `max 1` clamp,
exactly as claim C2 words it. -/
def spec_damage_formula (attacker_power defender_defense : ℤ)
    (is_critical is_magic : Bool) (variance : ℚ) : ℤ :=
  let d : ℚ :=
    if is_magic then (defender_defense : ℚ) * (1 / 2) else (defender_defense : ℚ)
  ⌊max ((attacker_power : ℚ) * (85 / 100) - d * (6 / 10))
      ((attacker_power : ℚ) * (2 / 10)) * variance *
      (if is_critical then (175 / 100 : ℚ) else 1)⌋

theorem damage_core_collapse (atk dfn : ℤ) (magic : Bool) :
    max (max ((atk : ℚ) * (85 / 100) -
          (if magic then (dfn : ℚ) * (1 / 2) else (dfn : ℚ)) * (6 / 10))
        ((atk : ℚ) * (2 / 10))) ((atk : ℚ) * (1 - 8 / 10)) =
    max ((atk : ℚ) * (85 / 100) -
          (if magic then (dfn : ℚ) * (1 / 2) else (dfn : ℚ)) * (6 / 10))
        ((atk : ℚ) * (2 / 10)) := by
  have h : ((1 : ℚ) - 8 / 10) = 2 / 10 := by norm_num
  rw [h, max_assoc, max_self]

/-- C2 (amended): for attacker power ≥ 0 and variance in `[0.85, 1.15]` the
code returns the claimed floor formula clamped below at 1, hence the result
is at least 1 and never negative.  The bare floor formula of the claim is off
by the final `max 1` clamp. -/
theorem C2_calculate_balanced_damage_amended (atk dfn : ℤ) (crit magic : Bool) (v : ℚ)
    (hatk : 0 ≤ atk) (hv : 85 / 100 ≤ v) (_hv' : v ≤ 115 / 100) :
    calculate_balanced_damage atk dfn crit magic v =
      max 1 (spec_damage_formula atk dfn crit magic v) ∧
    1 ≤ calculate_balanced_damage atk dfn crit magic v := by
  have hv0 : (0 : ℚ) ≤ v := le_trans (by norm_num) hv
  have hm : (0 : ℚ) ≤ (atk : ℚ) * (2 / 10) := by positivity
  have hcore : (0 : ℚ) ≤
      max ((atk : ℚ) * (85 / 100) -
          (if magic then (dfn : ℚ) * (1 / 2) else (dfn : ℚ)) * (6 / 10))
        ((atk : ℚ) * (2 / 10)) := le_trans hm (le_max_right _ _)
  constructor
  · simp only [calculate_balanced_damage, spec_damage_formula,
      damage_core_collapse]
    cases crit
    · simp only [Bool.false_eq_true, if_false, mul_one]
      rw [pyInt_of_nonneg (mul_nonneg hcore hv0)]
    · simp only [if_true]
      rw [pyInt_of_nonneg (by positivity)]
  · exact le_max_left _ _

/-- C2 counterexample: at attacker power 1, defense 0, no critical, no magic,
variance 0.85, the code returns 1 while the claim's floor formula yields 0 —
the claim omits the final `max 1` clamp. -/
theorem C2_counterexample :
    calculate_balanced_damage 1 0 false false (85 / 100) = 1 ∧
    spec_damage_formula 1 0 false false (85 / 100) = 0 ∧
    calculate_balanced_damage 1 0 false false (85 / 100) ≠
      spec_damage_formula 1 0 false false (85 / 100) := by
  have h1 : calculate_balanced_damage 1 0 false false (85 / 100) = 1 := by
    simp only [calculate_balanced_damage, pyInt]
    norm_num
  have h2 : spec_damage_formula 1 0 false false (85 / 100) = 0 := by
    simp only [spec_damage_formula]
    norm_num
  exact ⟨h1, h2, by rw [h1, h2]; decide⟩

/-- Witness for `C2_calculate_balanced_damage_amended` at attacker power 10,
defense 4, critical magic hit, variance 1. -/
theorem C2_witness :
    calculate_balanced_damage 10 4 true true 1 =
      max 1 (spec_damage_formula 10 4 true true 1) ∧
    1 ≤ calculate_balanced_damage 10 4 true true 1 :=
  C2_calculate_balanced_damage_amended 10 4 true true 1 (by decide)
    (by norm_num) (by norm_num)

/-!
## Data model

The `Character` dataclass lives in `database/database_models.py`, which is not
among the analysed sources; its numeric fields are reconstructed from the
`characters` table schema in `database/db_manager.py` and from every use in
`game_logic/`.  Modelled from the spec: `Character.is_alive` (health strictly
positive) and the invariant `0 ≤ health ≤ max_health`.  The equipped item ids
(`weapon`, `armor`) are represented by passing the result of the
`ItemManager.get_item` catalog lookup (an optional stat bundle) to the
functions that perform the lookup in the source.
-/

structure Character where
  name : String
  character_class : String
  level : ℤ
  experience : ℤ
  experience_needed : ℤ
  health : ℤ
  max_health : ℤ
  mana : ℤ
  max_mana : ℤ
  gold : ℤ
  attack : ℤ
  defense : ℤ
  magic_power : ℤ
  speed : ℤ
  critical_chance : ℤ
  block_chance : ℤ
deriving DecidableEq

/-- Modelled from the spec: a character is alive while its health is positive
(`database_models.py` is outside the analysed sources). -/
def Character.is_alive (c : Character) : Bool := 0 < c.health

/-- The stat bundle of a catalog item (`Item.stats` in items.py), restricted
to the eight keys `get_equipment_bonuses` reads; a key absent from the Python
dict is a zero field. -/
structure ItemStats where
  attack : ℤ := 0
  defense : ℤ := 0
  magic_power : ℤ := 0
  health : ℤ := 0
  mana : ℤ := 0
  speed : ℤ := 0
  critical_chance : ℤ := 0
  block_chance : ℤ := 0
deriving DecidableEq

/-- Accumulator dict of `CharacterManager.get_equipment_bonuses`. -/
structure Bonuses where
  attack : ℤ := 0
  defense : ℤ := 0
  magic_power : ℤ := 0
  health : ℤ := 0
  mana : ℤ := 0
  speed : ℤ := 0
  critical_chance : ℤ := 0
  block_chance : ℤ := 0
deriving DecidableEq

def add_item_bonuses (b : Bonuses) (it : Option ItemStats) : Bonuses :=
  match it with
  | none => b
  | some s =>
    { attack := b.attack + s.attack
      defense := b.defense + s.defense
      magic_power := b.magic_power + s.magic_power
      health := b.health + s.health
      mana := b.mana + s.mana
      speed := b.speed + s.speed
      critical_chance := b.critical_chance + s.critical_chance
      block_chance := b.block_chance + s.block_chance }

/-- `CharacterManager.get_equipment_bonuses` (character.py): sums the raw stat
dicts of the equipped weapon and armor catalog entries. -/
def get_equipment_bonuses (weapon armor : Option ItemStats) : Bonuses :=
  add_item_bonuses (add_item_bonuses {} weapon) armor

/-- Return dict of `CharacterManager.get_total_stats`. -/
structure TotalStats where
  health : ℤ
  max_health : ℤ
  mana : ℤ
  max_mana : ℤ
  attack : ℤ
  defense : ℤ
  magic_power : ℤ
  speed : ℤ
  critical_chance : ℤ
  block_chance : ℤ
deriving DecidableEq

/-- `CharacterManager.get_total_stats` (character.py): base stats plus
equipment bonuses; bonuses skip the current `health`/`mana` pools, and
equipment `health`/`mana` raise only the maxima and only when positive. -/
def get_total_stats (c : Character) (weapon armor : Option ItemStats) : TotalStats :=
  let b := get_equipment_bonuses weapon armor
  { health := c.health
    max_health := c.max_health + (if 0 < b.health then b.health else 0)
    mana := c.mana
    max_mana := c.max_mana + (if 0 < b.mana then b.mana else 0)
    attack := c.attack + b.attack
    defense := c.defense + b.defense
    magic_power := c.magic_power + b.magic_power
    speed := c.speed + b.speed
    critical_chance := c.critical_chance + b.critical_chance
    block_chance := c.block_chance + b.block_chance }

/-!
## `EquipmentManager` (equipment.py): upgrade formula, cost and attempt
-/

/-- `EquipmentManager.calculate_upgrade_stats`: stat after upgrades,
`int(base_stat * (1 + 0.15 * upgrade_level))`, with tier 0 returning the base
unmodified. -/
def calculate_upgrade_stats (base_stat : ℤ) (upgrade_level : ℕ) : ℤ :=
  if upgrade_level = 0 then base_stat
  else pyInt ((base_stat : ℚ) * (1 + (15 / 100) * upgrade_level))

structure UpgradeCost where
  gods_stone : ℤ
  gold : ℤ
  success_rate : ℤ
deriving DecidableEq

/-- `EquipmentManager.get_upgrade_cost`: the empty dict returned at the tier
cap becomes `none`. -/
def get_upgrade_cost (upgrade_level : ℕ) : Option UpgradeCost :=
  if 40 ≤ upgrade_level then none
  else some
    { gods_stone := 1 + (upgrade_level : ℤ).fdiv 3
      gold := pyInt (50 * (3 / 2 : ℚ) ^ upgrade_level)
      success_rate := max 30 (90 - (upgrade_level : ℤ) * 2) }

/-- Return dict of `EquipmentManager.attempt_upgrade`: the two shapes the
source returns (`reason: "max_level"` with no consumption, or a resolved
attempt carrying `new_level` and `materials_consumed`). -/
inductive UpgradeOutcome
  | max_level
  | attempted (success : Bool) (new_level : ℕ) (gods_stone gold : ℤ)
deriving DecidableEq

/-- `EquipmentManager.attempt_upgrade`; the success roll
`random.randint(1, 100)` is the explicit parameter `roll`. -/
def attempt_upgrade (upgrade_level : ℕ) (roll : ℤ) : UpgradeOutcome :=
  if 40 ≤ upgrade_level then .max_level
  else
    let cost := get_upgrade_cost upgrade_level
    let success_rate := match cost with
      | some c => c.success_rate
      | none => 50
    let success := roll ≤ success_rate
    .attempted success
      (if success then upgrade_level + 1 else upgrade_level)
      (match cost with | some c => c.gods_stone | none => 0)
      (match cost with | some c => c.gold | none => 0)

/-!
## `CombatManager._calculate_flee_chance` (combat.py)
-/

/-- `CombatManager._calculate_flee_chance`: `FLEE_BASE_CHANCE = 0.5` plus
`0.02` per point of speed difference, clamped to `[0.1, 0.9]`. -/
def calculate_flee_chance (character_speed enemy_speed : ℤ) : ℚ :=
  let speed_diff : ℤ := character_speed - enemy_speed
  let flee_chance : ℚ := 5 / 10 + (speed_diff : ℚ) * (2 / 100)
  max (1 / 10) (min (9 / 10) flee_chance)

/-!
## Enemy (enemies.py)

The cosmetic fields (`description`, `emoji`), the loot table and the
`enemy_type` tag are carried by the Python dataclass but never read by the
combat or scaling arithmetic; they are omitted.  The `behavior` tag is kept as
the string the scaling code dispatches on.
-/

structure Enemy where
  enemy_id : String
  name : String
  level : ℤ
  behavior : String
  max_health : ℤ
  health : ℤ
  attack : ℤ
  defense : ℤ
  magic_power : ℤ
  speed : ℤ
  critical_chance : ℤ
  block_chance : ℤ
  special_abilities : List String
  magic_resistance : ℤ
  physical_resistance : ℤ
  experience_reward : ℤ
  gold_min : ℤ
  gold_max : ℤ
deriving DecidableEq

def Enemy.is_alive (e : Enemy) : Bool := 0 < e.health

/-- `Enemy.take_damage`: resistance reduction (Python `//` floor division)
with a floor of 1, then health clamped at 0; returns the updated enemy and
the actual damage taken. -/
def Enemy.take_damage (e : Enemy) (damage : ℤ) (damage_type : String) :
    Enemy × ℤ :=
  let damage' :=
    if damage_type = "physical" ∧ 0 < e.physical_resistance then
      max 1 (damage - (damage * e.physical_resistance).fdiv 100)
    else if damage_type = "magic" ∧ 0 < e.magic_resistance then
      max 1 (damage - (damage * e.magic_resistance).fdiv 100)
    else damage
  ({ e with health := max 0 (e.health - damage') }, damage')

/-- `Enemy.heal`: health clamped at `max_health`; returns the updated enemy
and the amount actually healed. -/
def Enemy.heal (e : Enemy) (amount : ℤ) : Enemy × ℤ :=
  let new_health := min e.max_health (e.health + amount)
  ({ e with health := new_health }, new_health - e.health)

/-- `Enemy.get_health_percentage`. -/
def Enemy.get_health_percentage (e : Enemy) : ℚ :=
  (e.health : ℚ) / (e.max_health : ℚ) * 100

/-- `Enemy.should_use_ability`: 15% base chance, 25% below half health, 40%
below 30% health; the `random.randint(1, 100)` draw is `roll`. -/
def Enemy.should_use_ability (e : Enemy) (roll : ℤ) : Bool :=
  let health_pct := e.get_health_percentage
  let base_chance : ℤ :=
    if health_pct < 30 then 40
    else if health_pct < 50 then 25
    else 15
  roll ≤ base_chance

/-!
## Combat state and log (combat.py)

Human-readable log messages are rendering only and are omitted from the
`CombatTurn` record.
-/

inductive CombatActionT
  | attack
  | defend
  | magic_attack
  | use_item
  | flee
  | special_ability
deriving DecidableEq

inductive CombatResultT
  | victory
  | defeat
  | flee_success
  | flee_failed
  | ongoing
deriving DecidableEq

structure CombatTurn where
  actor_name : String
  action : CombatActionT
  target_name : String
  damage_dealt : ℤ := 0
  damage_taken : ℤ := 0
  is_critical : Bool := false
  is_blocked : Bool := false
  is_missed : Bool := false
  special_effect : String := ""
deriving DecidableEq

/-- Entry of a status-effect map: the `{type, value, duration}` dict. -/
structure Effect where
  type : String
  value : ℤ
  duration : ℤ
deriving DecidableEq

/-- `CombatManager._add_effect`: Python dict assignment `effects[id] = data`
(replace in place if the key exists, else append). -/
def add_effect (effects : List (String × Effect)) (effect_id : String)
    (e : Effect) : List (String × Effect) :=
  if effects.any (fun p => p.1 = effect_id) then
    effects.map (fun p => if p.1 = effect_id then (effect_id, e) else p)
  else effects ++ [(effect_id, e)]

structure CombatState where
  character : Character
  enemy : Enemy
  turn_number : ℤ := 0
  character_effects : List (String × Effect) := []
  enemy_effects : List (String × Effect) := []
  combat_log : List CombatTurn := []
deriving DecidableEq

/-!
## Consumable items (items.py `ItemManager.use_consumable`)

An `Item`'s `consumable_effects` dict becomes a list of structured effects;
the catalog's consumables carry nonnegative integer `health`/`mana` values,
stat-buff `temp_*` entries and a `resurrect` fraction (phoenix feather, 0.5).
-/

inductive ConsumableEffect
  | health (value : ℤ)
  | mana (value : ℤ)
  | mana_full
  | resurrect (value : ℚ)
  | temp (stat : String) (value : ℤ)
deriving DecidableEq

structure Item where
  is_consumable : Bool
  consumable_effects : List ConsumableEffect
deriving DecidableEq

/-- One iteration of the effect-application loop in
`ItemManager.use_consumable`: instantaneous heals clamp at the maxima,
`resurrect` only fires at zero health, `temp_*` effects touch no pool. -/
def apply_consumable_effect (c : Character) (e : ConsumableEffect) :
    Character :=
  match e with
  | .health v => { c with health := min (c.health + v) c.max_health }
  | .mana v => { c with mana := min (c.mana + v) c.max_mana }
  | .mana_full => if 0 < c.max_mana then { c with mana := c.max_mana } else c
  | .resurrect v =>
      if c.health ≤ 0 then
        { c with health := pyInt ((c.max_health : ℚ) * v) }
      else c
  | .temp _ _ => c

/-- `ItemManager.use_consumable`: fails without applying anything on a
non-consumable or an effect-free item, otherwise applies every declared
effect in order. -/
def use_consumable (item : Item) (c : Character) : Bool × Character :=
  if ¬ item.is_consumable then (false, c)
  else if item.consumable_effects = [] then (false, c)
  else (true, item.consumable_effects.foldl apply_consumable_effect c)

/-- `CharacterManager.use_consumable_item`: the `get_item` catalog lookup
result is the optional parameter; an unknown id (`none`) is a failed no-op. -/
def use_consumable_item (item : Option Item) (c : Character) :
    Bool × Character :=
  match item with
  | none => (false, c)
  | some i => if i.is_consumable then use_consumable i c else (false, c)

/-!
## Leveling (character.py `CharacterManager`, config.py)
-/

def MAX_LEVEL : ℤ := 50
def EXP_MULTIPLIER : ℚ := 3 / 2
def BASE_EXP_REQUIRED : ℤ := 100

/-- Per-level stat deltas of a class (`level_bonus` in
`config.CHARACTER_CLASSES`); every configured class lists all eight keys. -/
structure LevelBonus where
  health : ℤ
  mana : ℤ
  attack : ℤ
  defense : ℤ
  magic_power : ℤ
  speed : ℤ
  critical_chance : ℤ
  block_chance : ℤ
deriving DecidableEq

/-- `config.CHARACTER_CLASSES` restricted to the `level_bonus` tables;
unknown class strings miss the lookup. -/
def CHARACTER_CLASSES (char_class : String) : Option LevelBonus :=
  if char_class = "warrior" then some ⟨15, 0, 3, 2, 0, 1, 0, 0⟩
  else if char_class = "mage" then some ⟨10, 15, 1, 1, 3, 1, 0, 0⟩
  else if char_class = "ranger" then some ⟨12, 0, 2, 1, 0, 2, 1, 0⟩
  else none

/-- `CharacterManager.apply_level_bonuses`: a missed class lookup applies
nothing; otherwise the `health`/`mana` keys (present for every configured
class) raise the maxima and fully restore the pools, and each remaining stat
is raised only when its bonus is positive. -/
def apply_level_bonuses (c : Character) : Character :=
  match CHARACTER_CLASSES c.character_class with
  | none => c
  | some b =>
    { c with
      max_health := c.max_health + b.health
      health := c.max_health + b.health
      max_mana := c.max_mana + b.mana
      mana := c.max_mana + b.mana
      attack := c.attack + (if 0 < b.attack then b.attack else 0)
      defense := c.defense + (if 0 < b.defense then b.defense else 0)
      magic_power := c.magic_power +
        (if 0 < b.magic_power then b.magic_power else 0)
      speed := c.speed + (if 0 < b.speed then b.speed else 0)
      critical_chance := c.critical_chance +
        (if 0 < b.critical_chance then b.critical_chance else 0)
      block_chance := c.block_chance +
        (if 0 < b.block_chance then b.block_chance else 0) }

/-- `CharacterManager.level_up`: no-op below the threshold; otherwise debit
the threshold, advance one level, grow the threshold by `EXP_MULTIPLIER`
(truncated to an integer) and apply the class bonuses. -/
def level_up (c : Character) : Bool × Character :=
  if c.experience < c.experience_needed then (false, c)
  else
    let c₁ := { c with
      experience := c.experience - c.experience_needed
      level := c.level + 1
      experience_needed := pyInt ((c.experience_needed : ℚ) * EXP_MULTIPLIER) }
    (true, apply_level_bonuses c₁)

/-- The `while` loop of `CharacterManager.add_experience`, with fuel bounding
the iteration count (each iteration needs `level < MAX_LEVEL` and raises the
level by one, so `MAX_LEVEL - level` iterations suffice); returns the number
of levels gained. -/
def add_exp_loop : ℕ → Character → ℕ × Character
  | 0, c => (0, c)
  | fuel + 1, c =>
    if c.experience_needed ≤ c.experience ∧ c.level < MAX_LEVEL then
      match level_up c with
      | (true, c') =>
        let r := add_exp_loop fuel c'
        (r.1 + 1, r.2)
      | (false, c') => (0, c')
    else (0, c)

structure AddExpResult where
  exp_gained : ℤ
  levels_gained : ℕ
  old_level : ℤ
  new_level : ℤ
  level_up : Bool
deriving DecidableEq

/-- `CharacterManager.add_experience`. -/
def add_experience (c : Character) (exp_amount : ℤ) :
    AddExpResult × Character :=
  let c₀ := { c with experience := c.experience + exp_amount }
  let r := add_exp_loop (MAX_LEVEL - c₀.level).toNat c₀
  ({ exp_gained := exp_amount
     levels_gained := r.1
     old_level := c.level
     new_level := r.2.level
     level_up := 0 < r.1 }, r.2)

/-!
## Combat turns (combat.py `CombatManager`)

Every random draw is an explicit field of a draws structure; the equipped
weapon/armor catalog lookups of `get_total_stats` are the `weapon`/`armor`
parameters.
-/

/-- Random draws consumed by one enemy turn. -/
structure EnemyTurnDraws where
  ability_roll : ℤ
  ability_choice : String
  defend_roll : ℤ
  char_block_roll : ℤ
  crit_roll : ℤ
  variance : ℚ
deriving DecidableEq

/-- Random draws consumed by one player action. -/
structure PlayerDraws where
  crit_roll : ℤ
  variance : ℚ
  flee_roll : ℚ
deriving DecidableEq

/-- Draws for one `process_player_action` call: the player's own draws, the
following enemy turn's draws, and the victory gold roll
`random.randint(gold_min, gold_max)`. -/
structure StepDraws where
  player : PlayerDraws
  enemy : EnemyTurnDraws
  gold_roll : ℤ
deriving DecidableEq

/-- `CombatManager._damage_character`: health clamped at 0. -/
def damage_character (c : Character) (damage : ℤ) : Character :=
  { c with health := max 0 (c.health - damage) }

/-- `CombatManager._enemy_attack`. -/
def enemy_attack (weapon armor : Option ItemStats) (s : CombatState)
    (d : EnemyTurnDraws) : CombatTurn × CombatState :=
  let total_stats := get_total_stats s.character weapon armor
  let is_blocked := d.char_block_roll ≤ total_stats.block_chance
  if is_blocked then
    ({ actor_name := s.enemy.name, action := .attack,
       target_name := s.character.name, is_blocked := true }, s)
  else
    let is_critical := d.crit_roll ≤ s.enemy.critical_chance
    let damage := calculate_balanced_damage s.enemy.attack total_stats.defense
      is_critical false d.variance
    let character' := damage_character s.character damage
    ({ actor_name := s.enemy.name, action := .attack,
       target_name := s.character.name, damage_dealt := damage,
       is_critical := is_critical },
     { s with character := character' })

/-- `CombatManager._enemy_defend`: registers the enemy's one-turn
`defense_stance` effect. -/
def enemy_defend (s : CombatState) : CombatTurn × CombatState :=
  let effects' := add_effect s.enemy_effects "defense_stance"
    ⟨"defense_bonus", 8, 1⟩
  ({ actor_name := s.enemy.name, action := .defend,
     target_name := s.enemy.name },
   { s with enemy_effects := effects' })

/-- `CombatManager._enemy_special_ability`: the `random.choice` over
`special_abilities` is the draw `ability_choice`; an unrecognised ability
falls back to a plain attack. -/
def enemy_special_ability (weapon armor : Option ItemStats) (s : CombatState)
    (d : EnemyTurnDraws) : CombatTurn × CombatState :=
  if s.enemy.special_abilities = [] then enemy_attack weapon armor s d
  else
    let ability := d.ability_choice
    if ability = "poison_bite" then
      let damage := calculate_balanced_damage (s.enemy.attack + 5) 0
        false false d.variance
      let character' := damage_character s.character damage
      let char_effects' := add_effect s.character_effects "poison"
        ⟨"damage_over_time", 3, 3⟩
      ({ actor_name := s.enemy.name, action := .special_ability,
         target_name := s.character.name, special_effect := ability },
       { s with character := character', character_effects := char_effects' })
    else if ability = "regeneration" then
      let heal_amount := s.enemy.max_health.fdiv 10
      let enemy' := (s.enemy.heal heal_amount).1
      ({ actor_name := s.enemy.name, action := .special_ability,
         target_name := s.character.name, special_effect := ability },
       { s with enemy := enemy' })
    else enemy_attack weapon armor s d

/-- `CombatManager._enemy_turn`: special ability (when available and rolled),
else a block/defend stance, else a plain attack. -/
def enemy_turn (weapon armor : Option ItemStats) (s : CombatState)
    (d : EnemyTurnDraws) : CombatTurn × CombatState :=
  if s.enemy.special_abilities ≠ [] ∧
      s.enemy.should_use_ability d.ability_roll then
    enemy_special_ability weapon armor s d
  else if d.defend_roll ≤ s.enemy.block_chance then enemy_defend s
  else enemy_attack weapon armor s d

/-- `CombatManager._player_attack`: a magic attack with zero magic power
silently degrades to a physical attack. -/
def player_attack (weapon armor : Option ItemStats) (s : CombatState)
    (is_magic_attack : Bool) (d : PlayerDraws) : CombatTurn × CombatState :=
  let total_stats := get_total_stats s.character weapon armor
  let use_magic := is_magic_attack ∧ 0 < total_stats.magic_power
  let attack_power := if use_magic then total_stats.magic_power
    else total_stats.attack
  let action := if use_magic then CombatActionT.magic_attack
    else CombatActionT.attack
  let is_critical := d.crit_roll ≤ total_stats.critical_chance
  let damage := calculate_balanced_damage attack_power s.enemy.defense
    is_critical use_magic d.variance
  let r := s.enemy.take_damage damage (if use_magic then "magic"
    else "physical")
  ({ actor_name := s.character.name, action := action,
     target_name := s.enemy.name, damage_dealt := r.2,
     is_critical := is_critical },
   { s with enemy := r.1 })

/-- `CombatManager._player_defend`: registers the character's one-turn
`defense_stance` effect (value 10). -/
def player_defend (s : CombatState) : CombatTurn × CombatState :=
  let effects' := add_effect s.character_effects "defense_stance"
    ⟨"defense_bonus", 10, 1⟩
  ({ actor_name := s.character.name, action := .defend,
     target_name := s.character.name },
   { s with character_effects := effects' })

/-- `CombatManager._player_use_item`: a missing item id or unknown item is a
no-op turn; otherwise the consumable is applied through
`use_consumable_item`. -/
def player_use_item (s : CombatState) (item : Option Item) :
    CombatTurn × CombatState :=
  let r := use_consumable_item item s.character
  ({ actor_name := s.character.name, action := .use_item,
     target_name := s.character.name },
   { s with character := r.2 })

/-!
## Encounter results and the action dispatcher (combat.py)
-/

/-- The result dict of `_end_combat` / `process_player_action`
(`items_dropped` is a loot list that never touches the combatants and is
omitted; an `ongoing` outcome carries the live state). -/
structure CombatOutcome where
  result : CombatResultT
  state : CombatState
  turn_count : ℤ
  experience_gained : ℤ := 0
  gold_gained : ℤ := 0
  level_up : Bool := false
deriving DecidableEq

/-- `CombatManager._end_combat`: a victory pays gold
(`random.randint(gold_min, gold_max)` is `gold_roll`) and experience, which
may level the character up; every other result leaves the combatants
untouched. -/
def end_combat (s : CombatState) (result : CombatResultT) (gold_roll : ℤ) :
    CombatOutcome :=
  if result = .victory then
    let experience_gained := s.enemy.experience_reward
    let c₁ := { s.character with gold := s.character.gold + gold_roll }
    let r := add_experience c₁ experience_gained
    { result := result
      state := { s with character := r.2 }
      turn_count := s.turn_number
      experience_gained := experience_gained
      gold_gained := gold_roll
      level_up := r.1.level_up }
  else
    { result := result, state := s, turn_count := s.turn_number }

/-- `CombatManager._player_flee`: success is `random.random() < flee_chance`;
on failure the enemy takes a turn before control returns (ending the fight if
that turn kills the character). -/
def player_flee (weapon armor : Option ItemStats) (s : CombatState)
    (d : StepDraws) : CombatOutcome :=
  let total_stats := get_total_stats s.character weapon armor
  let flee_chance := calculate_flee_chance total_stats.speed s.enemy.speed
  let success : Prop := d.player.flee_roll < flee_chance
  let turn : CombatTurn :=
    { actor_name := s.character.name, action := .flee, target_name := "" }
  let s₁ : CombatState := { s with combat_log := s.combat_log ++ [turn] }
  if success then end_combat s₁ .flee_success d.gold_roll
  else
    let r := enemy_turn weapon armor s₁ d.enemy
    let s₂ : CombatState := { r.2 with combat_log := r.2.combat_log ++ [r.1] }
    if ¬ s₂.character.is_alive then end_combat s₂ .defeat d.gold_roll
    else { result := .ongoing, state := s₂, turn_count := s₂.turn_number }

/-- `CombatManager.process_player_action`: dispatch the player's action, log
it, give the still-alive enemy its turn, then settle the encounter or report
it ongoing.  The turn counter is neither advanced nor checked here. -/
def process_player_action (weapon armor : Option ItemStats) (s : CombatState)
    (action : CombatActionT) (item : Option Item) (d : StepDraws) :
    CombatOutcome :=
  match action with
  | .flee => player_flee weapon armor s d
  | _ =>
    let r : CombatTurn × CombatState :=
      match action with
      | .attack => player_attack weapon armor s false d.player
      | .magic_attack => player_attack weapon armor s true d.player
      | .defend => player_defend s
      | .use_item => player_use_item s item
      | _ => ({ actor_name := "", action := .attack, target_name := "" }, s)
    let s₁ : CombatState := { r.2 with combat_log := r.2.combat_log ++ [r.1] }
    let s₂ : CombatState :=
      if s₁.enemy.is_alive ∧ s₁.character.is_alive then
        let re := enemy_turn weapon armor s₁ d.enemy
        { re.2 with combat_log := re.2.combat_log ++ [re.1] }
      else s₁
    if ¬ s₂.character.is_alive then end_combat s₂ .defeat d.gold_roll
    else if ¬ s₂.enemy.is_alive then end_combat s₂ .victory d.gold_roll
    else { result := .ongoing, state := s₂, turn_count := s₂.turn_number }

/-!
## Status-effect ticking and the auto-combat loop (combat.py `start_combat`)
-/

/-- `CombatManager._process_turn_effects`: apply each damage-over-time tick,
decrement every duration, and drop expired effects (for both sides). -/
def process_turn_effects (s : CombatState) : CombatState :=
  let step_char := fun (acc : Character × List (String × Effect))
      (p : String × Effect) =>
    let c : Character := if p.2.type = "damage_over_time" then
        damage_character acc.1 p.2.value
      else acc.1
    let e' : Effect := { p.2 with duration := p.2.duration - 1 }
    (c, if e'.duration ≤ 0 then acc.2 else acc.2 ++ [(p.1, e')])
  let rc := s.character_effects.foldl step_char (s.character, [])
  let step_enemy := fun (acc : Enemy × List (String × Effect))
      (p : String × Effect) =>
    let en : Enemy := if p.2.type = "damage_over_time" then
        (acc.1.take_damage p.2.value "physical").1
      else acc.1
    let e' : Effect := { p.2 with duration := p.2.duration - 1 }
    (en, if e'.duration ≤ 0 then acc.2 else acc.2 ++ [(p.1, e')])
  let re := s.enemy_effects.foldl step_enemy (s.enemy, [])
  { s with
    character := rc.1
    character_effects := rc.2
    enemy := re.1
    enemy_effects := re.2 }

/-- `CombatManager._player_auto_turn`: magic attack when magic power beats
attack, else a physical attack. -/
def player_auto_turn (weapon armor : Option ItemStats) (s : CombatState)
    (d : PlayerDraws) : CombatTurn × CombatState :=
  let total_stats := get_total_stats s.character weapon armor
  if total_stats.attack < total_stats.magic_power then
    player_attack weapon armor s true d
  else player_attack weapon armor s false d

/-- Draws for one iteration of the auto-combat loop. -/
structure TurnDraws where
  player : PlayerDraws
  enemy : EnemyTurnDraws
deriving DecidableEq

/-- The `while True` loop of `CombatManager.start_combat` with
`auto_combat = True`: advance the turn counter, settle deaths, force a
`Defeat` past 50 turns, tick effects, then let both sides act in speed
order.  `fuel` bounds the iteration count; `none` means the fuel ran out
before the loop returned. -/
def combat_loop (weapon armor : Option ItemStats) :
    ℕ → CombatState → (ℕ → TurnDraws) → ℤ → Option CombatOutcome
  | 0, _, _, _ => none
  | fuel + 1, s, draws, gold_roll =>
    let s₁ := { s with turn_number := s.turn_number + 1 }
    if ¬ s₁.character.is_alive then some (end_combat s₁ .defeat gold_roll)
    else if ¬ s₁.enemy.is_alive then some (end_combat s₁ .victory gold_roll)
    else if 50 < s₁.turn_number then some (end_combat s₁ .defeat gold_roll)
    else
      let s₂ := process_turn_effects s₁
      let d := draws s₂.turn_number.toNat
      let char_speed := (get_total_stats s₂.character weapon armor).speed
      let s₃ :=
        if s₂.enemy.speed ≤ char_speed then
          let s' := (player_auto_turn weapon armor s₂ d.player).2
          if s'.enemy.is_alive then (enemy_turn weapon armor s' d.enemy).2
          else s'
        else
          let s' := (enemy_turn weapon armor s₂ d.enemy).2
          if s'.character.is_alive then
            (player_auto_turn weapon armor s' d.player).2
          else s'
      combat_loop weapon armor fuel s₃ draws gold_roll

/-!
## Enemy scaling (combat.py `BalancedCombatSystem`)

`scale_enemy_for_player` receives the template as a plain dict; the fields it
reads (identity, behavior, speed, crit/block chances, abilities, resistances,
loot) are modelled as a template structure that also carries the template's
own combat stats — which the scaler never reads.  The level jitter
`random.randint(-1, 1)` is the explicit parameter `level_delta`.
-/

structure BaseEnemy where
  enemy_id : String
  name : String
  behavior : String
  max_health : ℤ
  attack : ℤ
  defense : ℤ
  speed : ℤ
  critical_chance : ℤ
  block_chance : ℤ
  special_abilities : List String
  magic_resistance : ℤ
  physical_resistance : ℤ
deriving DecidableEq

/-- `BalancedCombatSystem._calculate_player_power`: weighted linear
combination of the effective stats and the level, truncated to an integer. -/
def calculate_player_power (player_stats : TotalStats) (level : ℤ) : ℤ :=
  pyInt ((level : ℚ) * 20 + (player_stats.attack : ℚ) * 8 +
    (player_stats.defense : ℚ) * 6 + (player_stats.max_health : ℚ) * (4 / 10) +
    (player_stats.speed : ℚ) * 2 + (player_stats.critical_chance : ℚ) * 3)

/-- The closed `location_multipliers` table; an unknown key defaults to 1.1
(the `.get(location_difficulty, 1.1)` fallback). -/
def location_multiplier (location_difficulty : String) : ℚ :=
  if location_difficulty = "forest_easy" then 8 / 10
  else if location_difficulty = "forest_normal" then 1
  else if location_difficulty = "dungeon_floor_1" then 11 / 10
  else if location_difficulty = "dungeon_floor_2" then 125 / 100
  else if location_difficulty = "dungeon_floor_3" then 14 / 10
  else if location_difficulty = "arena" then 13 / 10
  else if location_difficulty = "boss" then 18 / 10
  else 11 / 10

/-- `BalancedCombatSystem._calculate_experience_reward`: banded
level-difference multiplier times the location multiplier. -/
def calculate_experience_reward (enemy_level player_level : ℤ)
    (difficulty_mult : ℚ) : ℤ :=
  let base_exp := enemy_level * 25
  let level_diff := enemy_level - player_level
  let level_mult : ℚ :=
    if level_diff ≤ -2 then 5 / 10
    else if level_diff ≤ 0 then 8 / 10
    else if level_diff ≤ 2 then 1
    else 12 / 10
  pyInt ((base_exp : ℚ) * level_mult * difficulty_mult)

/-- `BalancedCombatSystem.scale_enemy_for_player`: distribute
`playerPower × 0.85 × locationMultiplier` over health/attack/defense
(35/40/25%), apply the behavior modifier, clamp to the hard floors, and start
health at `max_health` (the source assigns `health = max_health` after the
clamps, which also supersedes the dataclass `__post_init__`). -/
def scale_enemy_for_player (base : BaseEnemy) (c : Character)
    (weapon armor : Option ItemStats) (location_difficulty : String)
    (level_delta : ℤ) : Enemy :=
  let player_stats := get_total_stats c weapon armor
  let player_power := calculate_player_power player_stats c.level
  let location_mult := location_multiplier location_difficulty
  let target_enemy_power : ℚ := (player_power : ℚ) * (85 / 100) * location_mult
  let enemy_level := max 1 (c.level + level_delta)
  let scaled₀ : Enemy :=
    { enemy_id := base.enemy_id
      name := base.name
      level := enemy_level
      behavior := base.behavior
      max_health := pyInt (target_enemy_power * (35 / 100))
      health := 100
      attack := pyInt (target_enemy_power * (4 / 10))
      defense := pyInt (target_enemy_power * (25 / 100))
      magic_power := 0
      speed := base.speed + enemy_level
      critical_chance := base.critical_chance
      block_chance := base.block_chance
      special_abilities := base.special_abilities
      magic_resistance := base.magic_resistance
      physical_resistance := base.physical_resistance
      experience_reward :=
        calculate_experience_reward enemy_level c.level location_mult
      gold_min := pyInt ((enemy_level : ℚ) * 12 * location_mult * (8 / 10))
      gold_max := pyInt ((enemy_level : ℚ) * 12 * location_mult * (12 / 10)) }
  let scaled₁ : Enemy :=
    if base.behavior = "aggressive" then
      { scaled₀ with
        attack := pyInt ((scaled₀.attack : ℚ) * (12 / 10))
        defense := pyInt ((scaled₀.defense : ℚ) * (85 / 100))
        max_health := pyInt ((scaled₀.max_health : ℚ) * (85 / 100)) }
    else if base.behavior = "defensive" then
      { scaled₀ with
        defense := pyInt ((scaled₀.defense : ℚ) * (12 / 10))
        max_health := pyInt ((scaled₀.max_health : ℚ) * (12 / 10))
        attack := pyInt ((scaled₀.attack : ℚ) * (85 / 100)) }
    else if base.behavior = "berserker" then
      { scaled₀ with
        attack := pyInt ((scaled₀.attack : ℚ) * (13 / 10))
        defense := pyInt ((scaled₀.defense : ℚ) * (8 / 10)) }
    else scaled₀
  let scaled₂ : Enemy :=
    { scaled₁ with
      max_health := max 20 scaled₁.max_health
      attack := max 5 scaled₁.attack
      defense := max 1 scaled₁.defense }
  { scaled₂ with health := scaled₂.max_health }

/-!
## Claims about enemy scaling
-/

/-- C9: for every template, character, equipment and location key, and any
level jitter, the scaled enemy satisfies the hard floors
`max_health ≥ 20`, `attack ≥ 5`, `defense ≥ 1`, and starts with
`health = max_health`; scaling is total and never yields a zero-stat
enemy. -/
theorem C9_scale_enemy_floors (base : BaseEnemy) (c : Character)
    (weapon armor : Option ItemStats) (location_difficulty : String)
    (level_delta : ℤ) :
    20 ≤ (scale_enemy_for_player base c weapon armor location_difficulty
      level_delta).max_health ∧
    5 ≤ (scale_enemy_for_player base c weapon armor location_difficulty
      level_delta).attack ∧
    1 ≤ (scale_enemy_for_player base c weapon armor location_difficulty
      level_delta).defense ∧
    (scale_enemy_for_player base c weapon armor location_difficulty
      level_delta).health =
      (scale_enemy_for_player base c weapon armor location_difficulty
        level_delta).max_health := by
  refine ⟨?_, ?_, ?_, ?_⟩ <;>
    simp [scale_enemy_for_player, le_max_iff]

/-- C10 (implicit): the scaled enemy's `max_health`, `attack` and `defense`
never depend on the template's own combat stats — two templates with the same
behavior tag scale to identical core stats for the same character, equipment,
location and level jitter. -/
theorem C10_scale_template_independence (b₁ b₂ : BaseEnemy) (c : Character)
    (weapon armor : Option ItemStats) (location_difficulty : String)
    (level_delta : ℤ) (hb : b₁.behavior = b₂.behavior) :
    (scale_enemy_for_player b₁ c weapon armor location_difficulty
      level_delta).max_health =
      (scale_enemy_for_player b₂ c weapon armor location_difficulty
        level_delta).max_health ∧
    (scale_enemy_for_player b₁ c weapon armor location_difficulty
      level_delta).attack =
      (scale_enemy_for_player b₂ c weapon armor location_difficulty
        level_delta).attack ∧
    (scale_enemy_for_player b₁ c weapon armor location_difficulty
      level_delta).defense =
      (scale_enemy_for_player b₂ c weapon armor location_difficulty
        level_delta).defense := by
  by_cases h₁ : b₂.behavior = "aggressive" <;>
    by_cases h₂ : b₂.behavior = "defensive" <;>
      by_cases h₃ : b₂.behavior = "berserker" <;>
        simp [scale_enemy_for_player, hb, h₁, h₂, h₃]

/-- Witness for `C10_scale_template_independence`: a weak goblin template
and a strong dragon template, both `balanced`, scale to the same core
stats for the same level-1 warrior. -/
theorem C10_witness :
    (scale_enemy_for_player
      ⟨"goblin", "Goblin", "balanced", 10, 2, 1, 5, 5, 10, [], 0, 0⟩
      ⟨"hero", "warrior", 1, 0, 100, 100, 100, 0, 0, 50, 12, 8, 0, 8, 10, 15⟩
      none none "forest_normal" 0).max_health =
    (scale_enemy_for_player
      ⟨"dragon", "Dragon", "balanced", 5000, 400, 300, 30, 25, 30,
        ["poison_bite"], 50, 50⟩
      ⟨"hero", "warrior", 1, 0, 100, 100, 100, 0, 0, 50, 12, 8, 0, 8, 10, 15⟩
      none none "forest_normal" 0).max_health ∧
    (scale_enemy_for_player
      ⟨"goblin", "Goblin", "balanced", 10, 2, 1, 5, 5, 10, [], 0, 0⟩
      ⟨"hero", "warrior", 1, 0, 100, 100, 100, 0, 0, 50, 12, 8, 0, 8, 10, 15⟩
      none none "forest_normal" 0).attack =
    (scale_enemy_for_player
      ⟨"dragon", "Dragon", "balanced", 5000, 400, 300, 30, 25, 30,
        ["poison_bite"], 50, 50⟩
      ⟨"hero", "warrior", 1, 0, 100, 100, 100, 0, 0, 50, 12, 8, 0, 8, 10, 15⟩
      none none "forest_normal" 0).attack ∧
    (scale_enemy_for_player
      ⟨"goblin", "Goblin", "balanced", 10, 2, 1, 5, 5, 10, [], 0, 0⟩
      ⟨"hero", "warrior", 1, 0, 100, 100, 100, 0, 0, 50, 12, 8, 0, 8, 10, 15⟩
      none none "forest_normal" 0).defense =
    (scale_enemy_for_player
      ⟨"dragon", "Dragon", "balanced", 5000, 400, 300, 30, 25, 30,
        ["poison_bite"], 50, 50⟩
      ⟨"hero", "warrior", 1, 0, 100, 100, 100, 0, 0, 50, 12, 8, 0, 8, 10, 15⟩
      none none "forest_normal" 0).defense :=
  C10_scale_template_independence
    ⟨"goblin", "Goblin", "balanced", 10, 2, 1, 5, 5, 10, [], 0, 0⟩
    ⟨"dragon", "Dragon", "balanced", 5000, 400, 300, 30, 25, 30,
      ["poison_bite"], 50, 50⟩
    ⟨"hero", "warrior", 1, 0, 100, 100, 100, 0, 0, 50, 12, 8, 0, 8, 10, 15⟩
    none none "forest_normal" 0 rfl

/-!
## Claim C7: stat aggregation and the upgrade formula
-/

/-- An item bundle with every stat put through
`EquipmentManager.calculate_upgrade_stats` at the given tier. -/
def upgrade_item_stats (s : ItemStats) (tier : ℕ) : ItemStats :=
  { attack := calculate_upgrade_stats s.attack tier
    defense := calculate_upgrade_stats s.defense tier
    magic_power := calculate_upgrade_stats s.magic_power tier
    health := calculate_upgrade_stats s.health tier
    mana := calculate_upgrade_stats s.mana tier
    speed := calculate_upgrade_stats s.speed tier
    critical_chance := calculate_upgrade_stats s.critical_chance tier
    block_chance := calculate_upgrade_stats s.block_chance tier }

/-- The aggregator claim C7 asserts, built from the spec's words (§4.1 with
the §3 upgrade formula): each equipped item contributes
`int(base_stat × (1 + 0.15 × upgrade_tier))` per stat.  To be compared with
`get_total_stats`, the source's aggregator, which never sees the tiers. -/
def get_total_stats_claimed (c : Character) (weapon armor : ItemStats)
    (weapon_tier armor_tier : ℕ) : TotalStats :=
  get_total_stats c (some (upgrade_item_stats weapon weapon_tier))
    (some (upgrade_item_stats armor armor_tier))

theorem upgrade_item_stats_zero (s : ItemStats) : upgrade_item_stats s 0 = s :=
  rfl

/-- C7 counterexample: a level-1 warrior with an attack-10 weapon at upgrade
tier 1.  The claim's formula yields effective attack
`12 + int(10 × 1.15) = 23`, but `get_total_stats` never consults the tier and
returns `12 + 10 = 22`. -/
theorem C7_counterexample :
    (get_total_stats
      ⟨"hero", "warrior", 1, 0, 100, 100, 100, 0, 0, 50, 12, 8, 0, 8, 10, 15⟩
      (some { attack := 10 }) (some { defense := 6 })).attack = 22 ∧
    (get_total_stats_claimed
      ⟨"hero", "warrior", 1, 0, 100, 100, 100, 0, 0, 50, 12, 8, 0, 8, 10, 15⟩
      { attack := 10 } { defense := 6 } 1 0).attack = 23 ∧
    (get_total_stats
      ⟨"hero", "warrior", 1, 0, 100, 100, 100, 0, 0, 50, 12, 8, 0, 8, 10, 15⟩
      (some { attack := 10 }) (some { defense := 6 })).attack ≠
    (get_total_stats_claimed
      ⟨"hero", "warrior", 1, 0, 100, 100, 100, 0, 0, 50, 12, 8, 0, 8, 10, 15⟩
      { attack := 10 } { defense := 6 } 1 0).attack := by
  refine ⟨?_, ?_, ?_⟩ <;>
    norm_num [get_total_stats, get_total_stats_claimed, upgrade_item_stats,
      calculate_upgrade_stats, get_equipment_bonuses, add_item_bonuses, pyInt]

/-- C7 (amended): the aggregator adds the raw base stats of the equipped
items — upgrade tiers never enter the combat stat aggregation, so the claimed
formula holds exactly at tier 0 (where an item contributes its base stat
unmodified) and at no positive tier that changes a stat. -/
theorem C7_total_stats_amended (c : Character) (w a : ItemStats) :
    get_total_stats c (some w) (some a) = get_total_stats_claimed c w a 0 0 ∧
    (get_total_stats c (some w) (some a)).attack =
      c.attack + w.attack + a.attack ∧
    (get_total_stats c (some w) (some a)).defense =
      c.defense + w.defense + a.defense ∧
    (get_total_stats c (some w) (some a)).speed =
      c.speed + w.speed + a.speed := by
  refine ⟨rfl, ?_, ?_, ?_⟩ <;>
    simp [get_total_stats, get_equipment_bonuses, add_item_bonuses] <;> ring

/-!
## Claim C4: upgrade attempts
-/

/-- C4: below the cap of 40 an attempt always reports the declared
`gods_stone`/`gold` cost as consumed regardless of the roll, advances the
tier exactly on success, and never leaves the cap exceeded; at or past the
cap it returns the distinct `max_level` failure, with no declared cost and
nothing consumed. -/
theorem C4_attempt_upgrade (t : ℕ) (roll : ℤ) :
    (t < 40 →
      get_upgrade_cost t = some
        { gods_stone := 1 + (t : ℤ).fdiv 3
          gold := pyInt (50 * (3 / 2 : ℚ) ^ t)
          success_rate := max 30 (90 - (t : ℤ) * 2) } ∧
      attempt_upgrade t roll =
        .attempted (decide (roll ≤ max 30 (90 - (t : ℤ) * 2)))
          (if roll ≤ max 30 (90 - (t : ℤ) * 2) then t + 1 else t)
          (1 + (t : ℤ).fdiv 3) (pyInt (50 * (3 / 2 : ℚ) ^ t)) ∧
      (if roll ≤ max 30 (90 - (t : ℤ) * 2) then t + 1 else t) ≤ 40) ∧
    (40 ≤ t → attempt_upgrade t roll = .max_level ∧
      get_upgrade_cost t = none) := by
  constructor
  · intro h
    have h40 : ¬ 40 ≤ t := by omega
    refine ⟨by simp [get_upgrade_cost, h40], ?_, ?_⟩
    · simp [attempt_upgrade, get_upgrade_cost, h40]
    · split <;> omega
  · intro h
    exact ⟨by simp [attempt_upgrade, h], by simp [get_upgrade_cost, h]⟩

/-- Witness for `C4_attempt_upgrade` at tier 2 with roll 50 (a success
against the 86% rate) and at tier 41 (past the cap). -/
theorem C4_witness :
    (get_upgrade_cost 2 = some
      { gods_stone := 1 + (2 : ℤ).fdiv 3
        gold := pyInt (50 * (3 / 2 : ℚ) ^ 2)
        success_rate := max 30 (90 - (2 : ℤ) * 2) } ∧
     attempt_upgrade 2 50 =
       .attempted (decide ((50 : ℤ) ≤ max 30 (90 - (2 : ℤ) * 2)))
         (if (50 : ℤ) ≤ max 30 (90 - (2 : ℤ) * 2) then 2 + 1 else 2)
         (1 + (2 : ℤ).fdiv 3) (pyInt (50 * (3 / 2 : ℚ) ^ 2)) ∧
     (if (50 : ℤ) ≤ max 30 (90 - (2 : ℤ) * 2) then 2 + 1 else 2) ≤ 40) ∧
    (attempt_upgrade 41 7 = .max_level ∧ get_upgrade_cost 41 = none) :=
  ⟨(C4_attempt_upgrade 2 50).1 (by norm_num),
   (C4_attempt_upgrade 41 7).2 (by norm_num)⟩

/-!
## Claim C6: fleeing
-/

theorem end_combat_result (s : CombatState) (r : CombatResultT) (g : ℤ) :
    (end_combat s r g).result = r := by
  unfold end_combat; split <;> rfl

theorem end_combat_turn_count (s : CombatState) (r : CombatResultT) (g : ℤ) :
    (end_combat s r g).turn_count = s.turn_number := by
  unfold end_combat; split <;> rfl

theorem end_combat_state_of_ne (s : CombatState) (r : CombatResultT) (g : ℤ)
    (h : ¬ r = .victory) : (end_combat s r g).state = s := by
  simp [end_combat, h]

/-- The state `_player_flee` leaves behind after a failed flee: the flee
attempt is logged and the enemy has taken exactly one turn. -/
def flee_failure_state (weapon armor : Option ItemStats) (s : CombatState)
    (d : StepDraws) : CombatState :=
  let s₁ : CombatState := { s with combat_log := s.combat_log ++
    [{ actor_name := s.character.name, action := .flee, target_name := "" }] }
  let r := enemy_turn weapon armor s₁ d.enemy
  { r.2 with combat_log := r.2.combat_log ++ [r.1] }

/-- C6: the flee success probability is
`0.5 + 0.02 × (actorSpeed − opponentSpeed)` clamped to `[0.1, 0.9]` — in
particular speed 20 vs 10 gives exactly 0.7 and a 40-point gap clamps to
0.9 — and a failed flee gives the opponent one turn before control returns
(ongoing, or defeat if that turn was fatal). -/
theorem C6_flee_chance (cs es : ℤ) (weapon armor : Option ItemStats)
    (s : CombatState) (d : StepDraws) :
    calculate_flee_chance cs es =
      max (1 / 10) (min (9 / 10)
        (1 / 2 + (2 / 100) * ((cs : ℚ) - (es : ℚ)))) ∧
    calculate_flee_chance 20 10 = 7 / 10 ∧
    (cs - es = 40 → calculate_flee_chance cs es = 9 / 10) ∧
    (¬ (d.player.flee_roll <
        calculate_flee_chance (get_total_stats s.character weapon armor).speed
          s.enemy.speed) →
      (player_flee weapon armor s d).state =
        flee_failure_state weapon armor s d ∧
      ((player_flee weapon armor s d).result = .ongoing ∨
        (player_flee weapon armor s d).result = .defeat)) := by
  refine ⟨?_, ?_, ?_, ?_⟩
  · simp only [calculate_flee_chance]
    congr 2
    push_cast
    ring
  · norm_num [calculate_flee_chance, min_def, max_def]
  · intro h
    simp only [calculate_flee_chance, h]
    norm_num [min_def, max_def]
  · intro hfail
    simp only [player_flee, flee_failure_state]
    rw [if_neg hfail]
    split
    · exact ⟨end_combat_state_of_ne _ _ _ (by simp),
        Or.inr (end_combat_result _ _ _)⟩
    · exact ⟨rfl, Or.inl rfl⟩

def c6_state : CombatState :=
  { character :=
      ⟨"hero", "warrior", 1, 0, 100, 100, 100, 0, 0, 50, 12, 8, 0, 10, 10, 15⟩
    enemy :=
      ⟨"wolf", "Wolf", 1, "balanced", 30, 30, 10, 3, 0, 10, 5, 10, [],
        0, 0, 25, 8, 12⟩ }

def c6_draws : StepDraws :=
  { player := { crit_roll := 100, variance := 1, flee_roll := 1 }
    enemy :=
      { ability_roll := 100
        ability_choice := ""
        defend_roll := 100
        char_block_roll := 100
        crit_roll := 100
        variance := 1 }
    gold_roll := 10 }

/-- Witness for `C6_flee_chance`: speeds 50 vs 10 (the clamped case) and a
concrete failed flee (roll 1 against chance 0.5 at equal speeds). -/
theorem C6_witness :
    calculate_flee_chance 50 10 =
      max (1 / 10) (min (9 / 10)
        (1 / 2 + (2 / 100) * ((50 : ℚ) - (10 : ℚ)))) ∧
    calculate_flee_chance 20 10 = 7 / 10 ∧
    calculate_flee_chance 50 10 = 9 / 10 ∧
    ((player_flee none none c6_state c6_draws).state =
        flee_failure_state none none c6_state c6_draws ∧
      ((player_flee none none c6_state c6_draws).result = .ongoing ∨
        (player_flee none none c6_state c6_draws).result = .defeat)) :=
  ⟨(C6_flee_chance 50 10 none none c6_state c6_draws).1,
   (C6_flee_chance 50 10 none none c6_state c6_draws).2.1,
   (C6_flee_chance 50 10 none none c6_state c6_draws).2.2.1 (by norm_num),
   (C6_flee_chance 50 10 none none c6_state c6_draws).2.2.2 (by
     norm_num [c6_state, c6_draws, calculate_flee_chance, get_total_stats,
       get_equipment_bonuses, add_item_bonuses, min_def, max_def])⟩

/-!
## Claim C8: experience and level-ups
-/

theorem apply_level_bonuses_preserves (c : Character) :
    (apply_level_bonuses c).level = c.level ∧
    (apply_level_bonuses c).experience = c.experience ∧
    (apply_level_bonuses c).experience_needed = c.experience_needed ∧
    (apply_level_bonuses c).character_class = c.character_class := by
  simp only [apply_level_bonuses]
  cases hc : CHARACTER_CLASSES c.character_class <;> simp

theorem apply_level_bonuses_restore (c : Character)
    (h : (CHARACTER_CLASSES c.character_class).isSome) :
    (apply_level_bonuses c).health = (apply_level_bonuses c).max_health ∧
    (apply_level_bonuses c).mana = (apply_level_bonuses c).max_mana := by
  simp only [apply_level_bonuses]
  cases hc : CHARACTER_CLASSES c.character_class
  · rw [hc] at h
    simp at h
  · simp [hc]

theorem level_up_class (c : Character) :
    (level_up c).2.character_class = c.character_class := by
  unfold level_up
  split
  · rfl
  · exact (apply_level_bonuses_preserves _).2.2.2

/-- One threshold crossing: at or above the threshold, `level_up` succeeds,
debits exactly the old threshold, advances exactly one level, and multiplies
the threshold by the growth factor (truncated). -/
theorem level_up_true (c : Character)
    (h : c.experience_needed ≤ c.experience) :
    (level_up c).1 = true ∧
    (level_up c).2.level = c.level + 1 ∧
    (level_up c).2.experience = c.experience - c.experience_needed ∧
    (level_up c).2.experience_needed =
      pyInt ((c.experience_needed : ℚ) * EXP_MULTIPLIER) := by
  have h' : ¬ c.experience < c.experience_needed := not_lt.mpr h
  simp only [level_up, if_neg h']
  exact ⟨trivial, (apply_level_bonuses_preserves _).1,
    (apply_level_bonuses_preserves _).2.1,
    (apply_level_bonuses_preserves _).2.2.1⟩

theorem level_up_eta (c : Character) (h : c.experience_needed ≤ c.experience) :
    level_up c = (true, (level_up c).2) := by
  rw [← (level_up_true c h).1]

theorem add_exp_loop_level (fuel : ℕ) (c : Character) :
    (add_exp_loop fuel c).2.level = c.level + (add_exp_loop fuel c).1 := by
  induction fuel generalizing c with
  | zero => simp [add_exp_loop]
  | succ fuel ih =>
    simp only [add_exp_loop]
    split
    · next hg =>
      rw [level_up_eta c hg.1]
      dsimp only
      rw [ih ((level_up c).2), (level_up_true c hg.1).2.1]
      push_cast
      ring
    · simp

theorem add_exp_loop_post (fuel : ℕ) (c : Character)
    (h : MAX_LEVEL ≤ c.level + fuel) :
    (add_exp_loop fuel c).2.experience <
      (add_exp_loop fuel c).2.experience_needed ∨
    MAX_LEVEL ≤ (add_exp_loop fuel c).2.level := by
  induction fuel generalizing c with
  | zero =>
    exact Or.inr (by simpa using h)
  | succ fuel ih =>
    simp only [add_exp_loop]
    split
    · next hg =>
      rw [level_up_eta c hg.1]
      dsimp only
      apply ih
      rw [(level_up_true c hg.1).2.1]
      push_cast at h ⊢
      omega
    · next hg =>
      rcases not_and_or.mp hg with h₁ | h₂
      · exact Or.inl (not_le.mp h₁)
      · exact Or.inr (not_lt.mp h₂)

theorem add_exp_loop_le (fuel : ℕ) (c : Character) (h : c.level ≤ MAX_LEVEL) :
    (add_exp_loop fuel c).2.level ≤ MAX_LEVEL := by
  induction fuel generalizing c with
  | zero => simpa [add_exp_loop] using h
  | succ fuel ih =>
    simp only [add_exp_loop]
    split
    · next hg =>
      rw [level_up_eta c hg.1]
      dsimp only
      apply ih
      rw [(level_up_true c hg.1).2.1]
      omega
    · exact h

theorem add_exp_loop_class (fuel : ℕ) (c : Character) :
    (add_exp_loop fuel c).2.character_class = c.character_class := by
  induction fuel generalizing c with
  | zero => rfl
  | succ fuel ih =>
    simp only [add_exp_loop]
    split
    · next hg =>
      rw [level_up_eta c hg.1]
      dsimp only
      rw [ih ((level_up c).2), level_up_class]
    · rfl

/-- After a successful `level_up` with a configured class, health and mana
sit at their (new) maxima. -/
theorem level_up_restore (c : Character)
    (hcl : (CHARACTER_CLASSES c.character_class).isSome)
    (h : c.experience_needed ≤ c.experience) :
    (level_up c).2.health = (level_up c).2.max_health ∧
    (level_up c).2.mana = (level_up c).2.max_mana := by
  simp only [level_up, if_neg (not_lt.mpr h)]
  exact apply_level_bonuses_restore _ hcl

/-- The loop never disturbs a character whose pools already sit at the
maxima: every level-up re-establishes that state. -/
theorem add_exp_loop_keep_restore (fuel : ℕ) (c : Character)
    (hcl : (CHARACTER_CLASSES c.character_class).isSome)
    (hres : c.health = c.max_health ∧ c.mana = c.max_mana) :
    (add_exp_loop fuel c).2.health = (add_exp_loop fuel c).2.max_health ∧
    (add_exp_loop fuel c).2.mana = (add_exp_loop fuel c).2.max_mana := by
  induction fuel generalizing c with
  | zero => simpa [add_exp_loop] using hres
  | succ fuel ih =>
    simp only [add_exp_loop]
    split
    · next hg =>
      rw [level_up_eta c hg.1]
      dsimp only
      exact ih ((level_up c).2)
        (by rw [level_up_class]; exact hcl)
        (level_up_restore c hcl hg.1)
    · exact hres

theorem add_exp_loop_restore (fuel : ℕ) (c : Character)
    (hcl : (CHARACTER_CLASSES c.character_class).isSome) :
    0 < (add_exp_loop fuel c).1 →
    ((add_exp_loop fuel c).2.health = (add_exp_loop fuel c).2.max_health ∧
      (add_exp_loop fuel c).2.mana = (add_exp_loop fuel c).2.max_mana) := by
  cases fuel with
  | zero => intro hz; simp [add_exp_loop] at hz
  | succ fuel =>
    simp only [add_exp_loop]
    split
    · next hg =>
      rw [level_up_eta c hg.1]
      dsimp only
      intro _
      exact add_exp_loop_keep_restore fuel ((level_up c).2)
        (by rw [level_up_class]; exact hcl)
        (level_up_restore c hcl hg.1)
    · intro hz; simp at hz

/-- C8: `add_experience` advances exactly one level per threshold crossed —
the loop runs while `experience ≥ experience_needed` and `level < MAX_LEVEL`,
each crossing debits the old threshold, adds one level, multiplies the
threshold by the growth factor and (for a configured class) restores health
and mana to the new maxima — and afterwards `experience <
experience_needed` unless the cap was reached. -/
theorem C8_add_experience (c : Character) (exp_amount : ℤ)
    (hcl : (CHARACTER_CLASSES c.character_class).isSome)
    (hle : c.level ≤ MAX_LEVEL) :
    ((add_experience c exp_amount).2.experience <
        (add_experience c exp_amount).2.experience_needed ∨
      (add_experience c exp_amount).2.level = MAX_LEVEL) ∧
    (add_experience c exp_amount).2.level =
      c.level + (add_experience c exp_amount).1.levels_gained ∧
    (add_experience c exp_amount).1.new_level =
      (add_experience c exp_amount).2.level ∧
    (add_experience c exp_amount).1.old_level = c.level ∧
    (0 < (add_experience c exp_amount).1.levels_gained →
      (add_experience c exp_amount).2.health =
        (add_experience c exp_amount).2.max_health ∧
      (add_experience c exp_amount).2.mana =
        (add_experience c exp_amount).2.max_mana) ∧
    (c.experience_needed ≤ c.experience →
      (level_up c).1 = true ∧
      (level_up c).2.level = c.level + 1 ∧
      (level_up c).2.experience = c.experience - c.experience_needed ∧
      (level_up c).2.experience_needed =
        pyInt ((c.experience_needed : ℚ) * EXP_MULTIPLIER)) := by
  refine ⟨?_, ?_, rfl, rfl, ?_, fun h => level_up_true c h⟩
  · have hfuel : MAX_LEVEL ≤
        ({ c with experience := c.experience + exp_amount } : Character).level +
          ((MAX_LEVEL -
            ({ c with experience := c.experience + exp_amount } :
              Character).level).toNat : ℤ) := by
      omega
    rcases add_exp_loop_post _ _ hfuel with h | h
    · exact Or.inl h
    · refine Or.inr (le_antisymm ?_ h)
      exact add_exp_loop_le _ _ hle
  · exact add_exp_loop_level _ _
  · exact add_exp_loop_restore _ _ hcl

/-- Witness for `C8_add_experience`: a level-1 warrior granted 150
experience crosses exactly the first 100-point threshold. -/
theorem C8_witness :
    ((add_experience
        ⟨"hero", "warrior", 1, 0, 100, 100, 100, 0, 0, 50, 12, 8, 0, 8, 10, 15⟩
        150).2.experience <
      (add_experience
        ⟨"hero", "warrior", 1, 0, 100, 100, 100, 0, 0, 50, 12, 8, 0, 8, 10, 15⟩
        150).2.experience_needed ∨
     (add_experience
        ⟨"hero", "warrior", 1, 0, 100, 100, 100, 0, 0, 50, 12, 8, 0, 8, 10, 15⟩
        150).2.level = MAX_LEVEL) ∧
    (add_experience
        ⟨"hero", "warrior", 1, 0, 100, 100, 100, 0, 0, 50, 12, 8, 0, 8, 10, 15⟩
        150).2.level =
      1 + (add_experience
        ⟨"hero", "warrior", 1, 0, 100, 100, 100, 0, 0, 50, 12, 8, 0, 8, 10, 15⟩
        150).1.levels_gained ∧
    (add_experience
        ⟨"hero", "warrior", 1, 0, 100, 100, 100, 0, 0, 50, 12, 8, 0, 8, 10, 15⟩
        150).1.new_level =
      (add_experience
        ⟨"hero", "warrior", 1, 0, 100, 100, 100, 0, 0, 50, 12, 8, 0, 8, 10, 15⟩
        150).2.level ∧
    (add_experience
        ⟨"hero", "warrior", 1, 0, 100, 100, 100, 0, 0, 50, 12, 8, 0, 8, 10, 15⟩
        150).1.old_level = 1 ∧
    (0 < (add_experience
        ⟨"hero", "warrior", 1, 0, 100, 100, 100, 0, 0, 50, 12, 8, 0, 8, 10, 15⟩
        150).1.levels_gained →
      (add_experience
        ⟨"hero", "warrior", 1, 0, 100, 100, 100, 0, 0, 50, 12, 8, 0, 8, 10, 15⟩
        150).2.health =
        (add_experience
          ⟨"hero", "warrior", 1, 0, 100, 100, 100, 0, 0, 50, 12, 8, 0, 8, 10,
            15⟩ 150).2.max_health ∧
      (add_experience
        ⟨"hero", "warrior", 1, 0, 100, 100, 100, 0, 0, 50, 12, 8, 0, 8, 10, 15⟩
        150).2.mana =
        (add_experience
          ⟨"hero", "warrior", 1, 0, 100, 100, 100, 0, 0, 50, 12, 8, 0, 8, 10,
            15⟩ 150).2.max_mana) ∧
    (((⟨"hero", "warrior", 1, 0, 100, 100, 100, 0, 0, 50, 12, 8, 0, 8, 10, 15⟩ :
        Character)).experience_needed ≤
      (⟨"hero", "warrior", 1, 0, 100, 100, 100, 0, 0, 50, 12, 8, 0, 8, 10, 15⟩ :
        Character).experience →
      (level_up
        ⟨"hero", "warrior", 1, 0, 100, 100, 100, 0, 0, 50, 12, 8, 0, 8, 10,
          15⟩).1 = true ∧
      (level_up
        ⟨"hero", "warrior", 1, 0, 100, 100, 100, 0, 0, 50, 12, 8, 0, 8, 10,
          15⟩).2.level = 1 + 1 ∧
      (level_up
        ⟨"hero", "warrior", 1, 0, 100, 100, 100, 0, 0, 50, 12, 8, 0, 8, 10,
          15⟩).2.experience = 0 - 100 ∧
      (level_up
        ⟨"hero", "warrior", 1, 0, 100, 100, 100, 0, 0, 50, 12, 8, 0, 8, 10,
          15⟩).2.experience_needed = pyInt ((100 : ℚ) * EXP_MULTIPLIER)) :=
  C8_add_experience
    ⟨"hero", "warrior", 1, 0, 100, 100, 100, 0, 0, 50, 12, 8, 0, 8, 10, 15⟩
    150 (by simp [CHARACTER_CLASSES]) (by simp [MAX_LEVEL])

/-!
## Claim C5: the Defend stance is registered but never applied
-/

/-- A defending level-1 character: defense 8, no equipment, block and crit
chances 0 so the following enemy hit resolves deterministically. -/
def c5_state : CombatState :=
  { character :=
      ⟨"hero", "warrior", 1, 0, 100, 100, 100, 0, 0, 50, 12, 8, 0, 10, 0, 0⟩
    enemy :=
      ⟨"orc", "Orc", 1, "balanced", 50, 50, 20, 3, 0, 10, 0, 0, [],
        0, 0, 25, 8, 12⟩ }

def c5_draws : StepDraws :=
  { player := { crit_roll := 100, variance := 1, flee_roll := 1 }
    enemy :=
      { ability_roll := 100
        ability_choice := ""
        defend_roll := 100
        char_block_roll := 100
        crit_roll := 100
        variance := 1 }
    gold_roll := 10 }

/-- C5 (code bug): the player's `Defend` registers the one-turn
`defense_stance` (+10) effect, but `_enemy_attack` computes damage from
`get_total_stats` alone, which never reads the effect map — the very next
enemy hit lands for the unbuffed 12 damage (defense 8), not the 6 the
claimed +10 bonus would give (defense 18). -/
theorem C5_defend_bonus_ignored :
    (process_player_action none none c5_state .defend none
        c5_draws).state.character_effects =
      [("defense_stance", ⟨"defense_bonus", 10, 1⟩)] ∧
    (process_player_action none none c5_state .defend none
        c5_draws).state.character.health =
      100 - calculate_balanced_damage 20 8 false false 1 ∧
    calculate_balanced_damage 20 8 false false 1 = 12 ∧
    calculate_balanced_damage 20 (8 + 10) false false 1 = 6 := by
  have h8 : calculate_balanced_damage 20 8 false false 1 = 12 := by
    simp only [calculate_balanced_damage, pyInt]
    norm_num
  have h18 : calculate_balanced_damage 20 (8 + 10) false false 1 = 6 := by
    simp only [calculate_balanced_damage, pyInt]
    norm_num
  refine ⟨?_, ?_, h8, h18⟩
  · simp only [process_player_action, player_defend, add_effect, enemy_turn,
      enemy_attack, enemy_special_ability, get_total_stats,
      get_equipment_bonuses, add_item_bonuses, damage_character,
      Enemy.is_alive, Character.is_alive, Enemy.should_use_ability,
      Enemy.get_health_percentage, end_combat, c5_state, c5_draws]
    norm_num [h8]
  · simp only [process_player_action, player_defend, add_effect, enemy_turn,
      enemy_attack, enemy_special_ability, get_total_stats,
      get_equipment_bonuses, add_item_bonuses, damage_character,
      Enemy.is_alive, Character.is_alive, Enemy.should_use_ability,
      Enemy.get_health_percentage, end_combat, c5_state, c5_draws]
    norm_num [h8]

/-!
## Claim C3: the 50-turn cap
-/

theorem process_turn_effects_turn (s : CombatState) :
    (process_turn_effects s).turn_number = s.turn_number := rfl

theorem player_attack_turn (w a : Option ItemStats) (s : CombatState)
    (m : Bool) (d : PlayerDraws) :
    (player_attack w a s m d).2.turn_number = s.turn_number := rfl

theorem player_auto_turn_turn (w a : Option ItemStats) (s : CombatState)
    (d : PlayerDraws) :
    (player_auto_turn w a s d).2.turn_number = s.turn_number := by
  simp only [player_auto_turn]
  split <;> rfl

theorem enemy_attack_turn (w a : Option ItemStats) (s : CombatState)
    (d : EnemyTurnDraws) :
    (enemy_attack w a s d).2.turn_number = s.turn_number := by
  simp only [enemy_attack]
  split <;> rfl

theorem enemy_special_ability_turn (w a : Option ItemStats) (s : CombatState)
    (d : EnemyTurnDraws) :
    (enemy_special_ability w a s d).2.turn_number = s.turn_number := by
  simp only [enemy_special_ability]
  split
  · exact enemy_attack_turn w a s d
  · split
    · rfl
    · split
      · rfl
      · exact enemy_attack_turn w a s d

theorem enemy_turn_turn (w a : Option ItemStats) (s : CombatState)
    (d : EnemyTurnDraws) :
    (enemy_turn w a s d).2.turn_number = s.turn_number := by
  simp only [enemy_turn]
  split
  · exact enemy_special_ability_turn w a s d
  · split
    · rfl
    · exact enemy_attack_turn w a s d

/-- The two-sided exchange of one auto-combat iteration never touches the
turn counter. -/
theorem combat_body_turn (w a : Option ItemStats) (s : CombatState)
    (d : TurnDraws) :
    (if s.enemy.speed ≤ (get_total_stats s.character w a).speed then
        (if ((player_auto_turn w a s d.player).2).enemy.is_alive then
          (enemy_turn w a ((player_auto_turn w a s d.player).2) d.enemy).2
        else (player_auto_turn w a s d.player).2)
      else
        (if ((enemy_turn w a s d.enemy).2).character.is_alive then
          (player_auto_turn w a ((enemy_turn w a s d.enemy).2) d.player).2
        else (enemy_turn w a s d.enemy).2)).turn_number = s.turn_number := by
  split
  · split
    · rw [enemy_turn_turn, player_auto_turn_turn]
    · rw [player_auto_turn_turn]
  · split
    · rw [player_auto_turn_turn, enemy_turn_turn]
    · rw [enemy_turn_turn]

/-- What the auto-combat loop guarantees when given enough fuel: a terminal
outcome, ended by defeat or victory, within turn 51. -/
def capped_outcome : Option CombatOutcome → Prop
  | none => False
  | some out =>
    out.turn_count ≤ 51 ∧
    (out.result = CombatResultT.defeat ∨ out.result = CombatResultT.victory)

theorem combat_loop_capped (w a : Option ItemStats) (draws : ℕ → TurnDraws)
    (g : ℤ) (fuel : ℕ) : ∀ s : CombatState, s.turn_number ≤ 50 →
    51 ≤ s.turn_number + fuel → capped_outcome (combat_loop w a fuel s draws g) := by
  induction fuel with
  | zero =>
    intro s h1 h2
    simp only [Nat.cast_zero, add_zero] at h2
    omega
  | succ fuel ih =>
    intro s h1 h2
    simp only [combat_loop]
    split
    · simp only [capped_outcome, end_combat_turn_count, end_combat_result]
      exact ⟨by omega, by simp⟩
    · split
      · simp only [capped_outcome, end_combat_turn_count, end_combat_result]
        exact ⟨by omega, by simp⟩
      · split
        · simp only [capped_outcome, end_combat_turn_count, end_combat_result]
          exact ⟨by omega, by simp⟩
        · next h3 =>
          apply ih
          · rw [combat_body_turn, process_turn_effects_turn]
            dsimp only at h3 ⊢
            omega
          · rw [combat_body_turn, process_turn_effects_turn]
            dsimp only
            push_cast at h2 ⊢
            omega

/-- C3 (amended): the 50-turn cap lives only in the auto-combat loop of
`start_combat` — with fuel 51 the loop always returns a terminal defeat or
victory by turn 51, and entering an iteration at turn ≥ 50 with both sides
alive forces the `Defeat` exit.  (`process_player_action`, the manual
`submitAction` path, neither advances nor checks the counter — see the
counterexample.) -/
theorem C3_turn_cap_amended (w a : Option ItemStats) (s : CombatState)
    (draws : ℕ → TurnDraws) (g : ℤ) (fuel : ℕ) :
    (s.turn_number = 0 → capped_outcome (combat_loop w a 51 s draws g)) ∧
    (50 ≤ s.turn_number → s.character.is_alive → s.enemy.is_alive →
      combat_loop w a (fuel + 1) s draws g =
        some (end_combat { s with turn_number := s.turn_number + 1 }
          CombatResultT.defeat g)) := by
  constructor
  · intro h0
    exact combat_loop_capped w a draws g 51 s (by omega) (by push_cast; omega)
  · intro hcap halc hale
    have h1 : ({ s with turn_number := s.turn_number + 1 } :
        CombatState).character.is_alive = true := halc
    have h2 : ({ s with turn_number := s.turn_number + 1 } :
        CombatState).enemy.is_alive = true := hale
    have h3 : (50 : ℤ) < ({ s with turn_number := s.turn_number + 1 } :
        CombatState).turn_number := by
      dsimp only
      omega
    simp [combat_loop, h1, h2, h3]

def c3_state : CombatState :=
  { character :=
      ⟨"hero", "warrior", 1, 0, 100, 100, 100, 0, 0, 50, 12, 8, 0, 10, 0, 0⟩
    enemy :=
      ⟨"orc", "Orc", 1, "balanced", 50, 50, 20, 3, 0, 10, 0, 10, [],
        0, 0, 25, 8, 12⟩
    turn_number := 51 }

def c3_draws : StepDraws :=
  { player := { crit_roll := 100, variance := 1, flee_roll := 1 }
    enemy :=
      { ability_roll := 100
        ability_choice := ""
        defend_roll := 1
        char_block_roll := 100
        crit_roll := 100
        variance := 1 }
    gold_roll := 10 }

/-- C3 counterexample: with the turn counter already at 51 and both
combatants alive, a submitted `Defend` action (the enemy answering with a
block stance) returns an `ongoing` result, not the claimed forced `Defeat`,
and leaves the counter untouched — the manual `process_player_action` path
never enforces the cap. -/
theorem C3_counterexample :
    c3_state.turn_number = 51 ∧
    c3_state.character.is_alive = true ∧
    c3_state.enemy.is_alive = true ∧
    (process_player_action none none c3_state .defend none c3_draws).result =
      CombatResultT.ongoing ∧
    (process_player_action none none c3_state .defend none c3_draws).result ≠
      CombatResultT.defeat ∧
    (process_player_action none none c3_state .defend none
      c3_draws).state.turn_number = 51 := by
  refine ⟨rfl, rfl, rfl, ?_, ?_, ?_⟩ <;>
    simp [process_player_action, player_defend, add_effect, enemy_turn,
      enemy_defend, enemy_attack, enemy_special_ability, get_total_stats,
      get_equipment_bonuses, add_item_bonuses, Enemy.is_alive,
      Character.is_alive, end_combat, c3_state, c3_draws]

def c3w_state : CombatState :=
  { character :=
      ⟨"hero", "warrior", 1, 0, 100, 100, 100, 0, 0, 50, 12, 8, 0, 10, 0, 0⟩
    enemy :=
      ⟨"orc", "Orc", 1, "balanced", 50, 50, 20, 3, 0, 10, 0, 10, [],
        0, 0, 25, 8, 12⟩
    turn_number := 50 }

def c3w_draws : ℕ → TurnDraws := fun _ =>
  { player := { crit_roll := 100, variance := 1, flee_roll := 1 }
    enemy :=
      { ability_roll := 100
        ability_choice := ""
        defend_roll := 1
        char_block_roll := 100
        crit_roll := 100
        variance := 1 } }

/-- Witness for `C3_turn_cap_amended`: a fresh encounter (turn 0) reaches a
capped terminal outcome, and a turn-50 state with both sides alive is forced
to the `Defeat` exit on the next iteration. -/
theorem C3_witness :
    capped_outcome (combat_loop none none 51
      { c3w_state with turn_number := 0 } c3w_draws 10) ∧
    combat_loop none none 1 c3w_state c3w_draws 10 =
      some (end_combat
        { c3w_state with turn_number := c3w_state.turn_number + 1 }
        CombatResultT.defeat 10) :=
  ⟨(C3_turn_cap_amended none none { c3w_state with turn_number := 0 }
      c3w_draws 10 0).1 rfl,
   (C3_turn_cap_amended none none c3w_state c3w_draws 10 0).2
      (by decide) rfl rfl⟩

/-!
## Claim C1: health bounds across `process_player_action`
-/

/-- The spec's health invariant for the character. -/
def healthy_char (c : Character) : Prop :=
  0 ≤ c.health ∧ c.health ≤ c.max_health

/-- The spec's health invariant for the enemy. -/
def healthy_enemy (e : Enemy) : Prop :=
  0 ≤ e.health ∧ e.health ≤ e.max_health

def healthy_state (s : CombatState) : Prop :=
  healthy_char s.character ∧ healthy_enemy s.enemy

/-- The shape of every consumable in the items.py catalog: heals and
restores are nonnegative, the resurrect fraction is at most 1. -/
def effect_ok : ConsumableEffect → Prop
  | .health v => 0 ≤ v
  | .mana v => 0 ≤ v
  | .resurrect v => 0 ≤ v ∧ v ≤ 1
  | _ => True

theorem calculate_balanced_damage_one_le (a d : ℤ) (c m : Bool) (v : ℚ) :
    1 ≤ calculate_balanced_damage a d c m v :=
  le_max_left _ _

theorem damage_character_healthy (c : Character) (d : ℤ)
    (h : healthy_char c) (hd : 0 ≤ d) :
    healthy_char (damage_character c d) := by
  obtain ⟨h1, h2⟩ := h
  simp only [damage_character, healthy_char]
  exact ⟨le_max_left _ _, max_le (le_trans h1 h2) (by omega)⟩

theorem take_damage_healthy (e : Enemy) (d : ℤ) (t : String)
    (h : healthy_enemy e) (hd : 0 ≤ d) :
    healthy_enemy (e.take_damage d t).1 := by
  obtain ⟨h1, h2⟩ := h
  simp only [Enemy.take_damage, healthy_enemy]
  refine ⟨le_max_left _ _, max_le (le_trans h1 h2) ?_⟩
  split
  · have := le_max_left (1 : ℤ)
      (d - (d * e.physical_resistance).fdiv 100)
    omega
  · split
    · have := le_max_left (1 : ℤ)
        (d - (d * e.magic_resistance).fdiv 100)
      omega
    · omega

theorem heal_healthy (e : Enemy) (amount : ℤ)
    (h : healthy_enemy e) (ha : 0 ≤ amount) :
    healthy_enemy (e.heal amount).1 := by
  obtain ⟨h1, h2⟩ := h
  exact ⟨le_min (le_trans h1 h2) (by omega), min_le_left _ _⟩

theorem apply_consumable_effect_healthy (c : Character) (e : ConsumableEffect)
    (h : healthy_char c) (he : effect_ok e) :
    healthy_char (apply_consumable_effect c e) := by
  obtain ⟨h1, h2⟩ := h
  cases e with
  | health v =>
    exact ⟨le_min (by exact add_nonneg h1 he) (le_trans h1 h2),
      min_le_right _ _⟩
  | mana v => exact ⟨h1, h2⟩
  | mana_full =>
    simp only [apply_consumable_effect]
    split <;> exact ⟨h1, h2⟩
  | resurrect v =>
    simp only [apply_consumable_effect]
    split
    · have hmax : (0 : ℤ) ≤ c.max_health := le_trans h1 h2
      have hq : (0 : ℚ) ≤ (c.max_health : ℚ) * v :=
        mul_nonneg (by exact_mod_cast hmax) he.1
      constructor
      · exact pyInt_nonneg hq
      · rw [pyInt_of_nonneg hq]
        calc ⌊(c.max_health : ℚ) * v⌋ ≤ ⌊((c.max_health : ℤ) : ℚ)⌋ :=
              Int.floor_le_floor (by
                calc (c.max_health : ℚ) * v ≤ (c.max_health : ℚ) * 1 := by
                      exact mul_le_mul_of_nonneg_left he.2
                        (by exact_mod_cast hmax)
                  _ = (c.max_health : ℚ) := mul_one _)
          _ = c.max_health := Int.floor_intCast _
    · exact ⟨h1, h2⟩
  | temp stat v => exact ⟨h1, h2⟩

theorem foldl_consumable_healthy (l : List ConsumableEffect) :
    ∀ c : Character, healthy_char c → (∀ e ∈ l, effect_ok e) →
      healthy_char (l.foldl apply_consumable_effect c) := by
  induction l with
  | nil => intro c h _; exact h
  | cons e l ih =>
    intro c h hok
    exact ih _ (apply_consumable_effect_healthy c e h (hok e (by simp)))
      (fun e' he' => hok e' (by simp [he']))

theorem use_consumable_item_healthy (item : Option Item) (c : Character)
    (h : healthy_char c)
    (hok : ∀ i, item = some i → ∀ e ∈ i.consumable_effects, effect_ok e) :
    healthy_char (use_consumable_item item c).2 := by
  cases item with
  | none => exact h
  | some i =>
    simp only [use_consumable_item, use_consumable]
    split
    · split
      · exact h
      · exact foldl_consumable_healthy _ c h (hok i rfl)
    · exact h

theorem apply_level_bonuses_healthy (c : Character) (h : healthy_char c) :
    healthy_char (apply_level_bonuses c) := by
  obtain ⟨h1, h2⟩ := h
  by_cases hw : c.character_class = "warrior"
  · simp only [apply_level_bonuses, CHARACTER_CLASSES, hw, healthy_char,
      if_true, if_pos]
    constructor <;> omega
  · by_cases hm : c.character_class = "mage"
    · simp [apply_level_bonuses, CHARACTER_CLASSES, hw, hm, healthy_char]
      omega
    · by_cases hr : c.character_class = "ranger"
      · simp [apply_level_bonuses, CHARACTER_CLASSES, hw, hm, hr,
          healthy_char]
        omega
      · simp [apply_level_bonuses, CHARACTER_CLASSES, hw, hm, hr]
        exact ⟨h1, h2⟩

theorem level_up_healthy (c : Character) (h : healthy_char c) :
    healthy_char (level_up c).2 := by
  simp only [level_up]
  split
  · exact h
  · exact apply_level_bonuses_healthy _ h

theorem add_exp_loop_healthy (fuel : ℕ) (c : Character) (h : healthy_char c) :
    healthy_char (add_exp_loop fuel c).2 := by
  induction fuel generalizing c with
  | zero => exact h
  | succ fuel ih =>
    simp only [add_exp_loop]
    split
    · next hg =>
      rw [level_up_eta c hg.1]
      dsimp only
      exact ih _ (level_up_healthy c h)
    · exact h

theorem add_experience_healthy (c : Character) (x : ℤ)
    (h : healthy_char c) : healthy_char (add_experience c x).2 :=
  add_exp_loop_healthy _ _ h

theorem end_combat_healthy (s : CombatState) (r : CombatResultT) (g : ℤ)
    (hc : healthy_char s.character) (he : healthy_enemy s.enemy) :
    healthy_char (end_combat s r g).state.character ∧
    healthy_enemy (end_combat s r g).state.enemy := by
  simp only [end_combat]
  split
  · exact ⟨add_experience_healthy _ _ hc, he⟩
  · exact ⟨hc, he⟩

theorem enemy_attack_healthy (w a : Option ItemStats) (s : CombatState)
    (d : EnemyTurnDraws) (h : healthy_state s) :
    healthy_state (enemy_attack w a s d).2 := by
  obtain ⟨hc, he⟩ := h
  simp only [enemy_attack]
  split
  · exact ⟨hc, he⟩
  · exact ⟨damage_character_healthy _ _ hc
      (le_trans (by norm_num) (calculate_balanced_damage_one_le _ _ _ _ _)),
      he⟩

theorem enemy_special_ability_healthy (w a : Option ItemStats)
    (s : CombatState) (d : EnemyTurnDraws) (h : healthy_state s) :
    healthy_state (enemy_special_ability w a s d).2 := by
  obtain ⟨hc, he⟩ := h
  simp only [enemy_special_ability]
  split
  · exact enemy_attack_healthy w a s d ⟨hc, he⟩
  · split
    · exact ⟨damage_character_healthy _ _ hc
        (le_trans (by norm_num)
          (calculate_balanced_damage_one_le _ _ _ _ _)), he⟩
    · split
      · refine ⟨hc, heal_healthy _ _ he ?_⟩
        exact Int.fdiv_nonneg (le_trans he.1 he.2) (by norm_num)
      · exact enemy_attack_healthy w a s d ⟨hc, he⟩

theorem enemy_turn_healthy (w a : Option ItemStats) (s : CombatState)
    (d : EnemyTurnDraws) (h : healthy_state s) :
    healthy_state (enemy_turn w a s d).2 := by
  simp only [enemy_turn]
  split
  · exact enemy_special_ability_healthy w a s d h
  · split
    · exact h
    · exact enemy_attack_healthy w a s d h

theorem player_attack_healthy (w a : Option ItemStats) (s : CombatState)
    (m : Bool) (d : PlayerDraws) (h : healthy_state s) :
    healthy_state (player_attack w a s m d).2 := by
  obtain ⟨hc, he⟩ := h
  exact ⟨hc, take_damage_healthy _ _ _ he
    (le_trans (by norm_num) (calculate_balanced_damage_one_le _ _ _ _ _))⟩

theorem player_use_item_healthy (s : CombatState) (item : Option Item)
    (h : healthy_state s)
    (hok : ∀ i, item = some i → ∀ e ∈ i.consumable_effects, effect_ok e) :
    healthy_state (player_use_item s item).2 :=
  ⟨use_consumable_item_healthy item s.character h.1 hok, h.2⟩

/-- The tail of `process_player_action` after the player acted: the enemy's
answer and the terminal checks keep both invariants. -/
theorem settle_after_turns_healthy (d : StepDraws) (s₂ : CombatState)
    (h : healthy_state s₂) :
    healthy_state
      ((if ¬ s₂.character.is_alive then end_combat s₂ .defeat d.gold_roll
        else if ¬ s₂.enemy.is_alive then end_combat s₂ .victory d.gold_roll
        else { result := .ongoing
               state := s₂
               turn_count := s₂.turn_number }) : CombatOutcome).state := by
  split
  · exact end_combat_healthy _ _ _ h.1 h.2
  · split
    · exact end_combat_healthy _ _ _ h.1 h.2
    · exact h

theorem player_flee_healthy (w a : Option ItemStats) (s : CombatState)
    (d : StepDraws) (h : healthy_state s) :
    healthy_state (player_flee w a s d).state := by
  obtain ⟨hc, he⟩ := h
  simp only [player_flee]
  split
  · exact end_combat_healthy _ _ _ hc he
  · have h2 : healthy_state (enemy_turn w a
        { s with combat_log := s.combat_log ++
          [{ actor_name := s.character.name, action := .flee,
             target_name := "" }] } d.enemy).2 :=
      enemy_turn_healthy w a _ d.enemy ⟨hc, he⟩
    split
    · exact end_combat_healthy _ _ _ h2.1 h2.2
    · exact h2

/-- C1: for every starting state whose combatants satisfy
`0 ≤ health ≤ max_health`, every action kind, every catalog-shaped item and
every assignment of the random draws, both invariants hold again after
`process_player_action` — damage clamps at 0, healing clamps at the
maximum. -/
theorem C1_health_bounds (weapon armor : Option ItemStats) (s : CombatState)
    (action : CombatActionT) (item : Option Item) (d : StepDraws)
    (hc : 0 ≤ s.character.health ∧ s.character.health ≤ s.character.max_health)
    (he : 0 ≤ s.enemy.health ∧ s.enemy.health ≤ s.enemy.max_health)
    (hok : ∀ i, item = some i → ∀ e ∈ i.consumable_effects, effect_ok e) :
    (0 ≤ (process_player_action weapon armor s action item d).state.character.health ∧
      (process_player_action weapon armor s action item d).state.character.health ≤
        (process_player_action weapon armor s action item d).state.character.max_health) ∧
    (0 ≤ (process_player_action weapon armor s action item d).state.enemy.health ∧
      (process_player_action weapon armor s action item d).state.enemy.health ≤
        (process_player_action weapon armor s action item d).state.enemy.max_health) := by
  have h : healthy_state s := ⟨hc, he⟩
  have hmain : ∀ r : CombatTurn × CombatState, healthy_state r.2 →
      healthy_state
        ((let s₁ : CombatState :=
            { r.2 with combat_log := r.2.combat_log ++ [r.1] }
          let s₂ : CombatState :=
            if s₁.enemy.is_alive ∧ s₁.character.is_alive then
              let re := enemy_turn weapon armor s₁ d.enemy
              { re.2 with combat_log := re.2.combat_log ++ [re.1] }
            else s₁
          if ¬ s₂.character.is_alive then end_combat s₂ .defeat d.gold_roll
          else if ¬ s₂.enemy.is_alive then
            end_combat s₂ .victory d.gold_roll
          else { result := .ongoing
                 state := s₂
                 turn_count := s₂.turn_number }) : CombatOutcome).state := by
    intro r hr
    apply settle_after_turns_healthy
    split
    · exact enemy_turn_healthy weapon armor _ d.enemy hr
    · exact hr
  cases action with
  | flee => exact player_flee_healthy weapon armor s d h
  | attack =>
    exact hmain (player_attack weapon armor s false d.player)
      (player_attack_healthy weapon armor s false d.player h)
  | magic_attack =>
    exact hmain (player_attack weapon armor s true d.player)
      (player_attack_healthy weapon armor s true d.player h)
  | defend => exact hmain (player_defend s) h
  | use_item =>
    exact hmain (player_use_item s item)
      (player_use_item_healthy s item h hok)
  | special_ability =>
    exact hmain ({ actor_name := "", action := .attack, target_name := "" }, s)
      h

def c1w_state : CombatState :=
  { character :=
      ⟨"hero", "warrior", 1, 0, 100, 100, 100, 0, 0, 50, 12, 8, 0, 10, 0, 0⟩
    enemy :=
      ⟨"orc", "Orc", 1, "balanced", 50, 50, 20, 3, 0, 10, 0, 0, [],
        0, 0, 25, 8, 12⟩ }

def c1w_draws : StepDraws :=
  { player := { crit_roll := 100, variance := 1, flee_roll := 1 }
    enemy :=
      { ability_roll := 100
        ability_choice := ""
        defend_roll := 100
        char_block_roll := 100
        crit_roll := 100
        variance := 1 }
    gold_roll := 10 }

/-- Witness for `C1_health_bounds`: a healthy level-1 warrior attacking a
healthy orc. -/
theorem C1_witness :
    (0 ≤ (process_player_action none none c1w_state .attack none
        c1w_draws).state.character.health ∧
      (process_player_action none none c1w_state .attack none
        c1w_draws).state.character.health ≤
        (process_player_action none none c1w_state .attack none
          c1w_draws).state.character.max_health) ∧
    (0 ≤ (process_player_action none none c1w_state .attack none
        c1w_draws).state.enemy.health ∧
      (process_player_action none none c1w_state .attack none
        c1w_draws).state.enemy.health ≤
        (process_player_action none none c1w_state .attack none
          c1w_draws).state.enemy.max_health) :=
  C1_health_bounds none none c1w_state .attack none c1w_draws
    (by constructor <;> norm_num [c1w_state])
    (by constructor <;> norm_num [c1w_state])
    (fun i hi => nomatch hi)

end RPG
